import Mathlib

/-!
Shallow embedding of the MattPkg DriverXmlLib XML parser/serializer.

Sources embedded here:
  * DriverXmlStringHandlers.c (the chunk extractor and string helpers:
    IsAsciiWhitespace, IsAsciiNameStartChar, ..., AsciiExtractXmlTag,
    AsciiExtractPI, AsciiExtractDeclaration, AsciiExtractAttribute,
    AsciiExtractMarkupOrText, AsciiGetTagNameFromElement, AsciiGetPIData)
  * DriverXmlParser.c (ParseBranch, DriverXmlParse, ParseAttributes,
    DeleteElementList, DriverXmlDeleteElement and helpers)
  * DriverWriteXml.c (ReallocateXmlDocument, StringToDocument, PrintTag,
    PrintEmptyTag, PrintAttribute, PrintPi, PrintCharData, PrintData,
    PrintWalkBranch)
  * DriverXmlApi.c (GetNextXmlElement, GetXmlTagByName)

Modelling conventions, used throughout:

  * A C byte buffer is a `List Char`; absolute byte positions are `Nat`.
    The parser state XML_DOCUMENT {XmlDocument, DocumentSize, OperationPtr}
    becomes the pair (doc : List Char, op : Nat) with
    EndOfData = doc.length.
  * `chGet s i` reads byte i of a NUL-terminated C string: positions at or
    past the end of the stored bytes read as the terminating NUL byte.
    This is exact for heap chunk strings (AllocateZeroPool places a NUL
    right after the copied bytes).
  * The raw input document is not NUL-terminated in C; several scanning
    loops in the source read one byte past EndOfData.  The model reads
    such bytes through `docByte pad`, with the unspecified past-the-end
    byte given explicitly as `pad`.  The parse pipeline instantiates
    pad := NUL; theorems that depend on a past-the-end read either
    quantify over pad or note the convention.
  * EFI_STATUS values are the `Status` inductive below; EFI_ERROR(x) is
    x ≠ Status.success for the codes that occur here (all non-success
    codes used by this library are error codes).
  * UINTN arithmetic that can wrap is taken mod 2^64 where it matters
    (list item counts in the deletion model, pointer offsets).
-/

set_option maxRecDepth 10000

/-- The NUL byte. -/
def nulChar : Char := Char.ofNat 0

/-- The single-quote byte (written via its code point). -/
def squote : Char := Char.ofNat 39

/-- Read byte `i` of a NUL-terminated C string modelled as the list of its
bytes before the terminator: reads at or past the terminator yield NUL. -/
def chGet (s : List Char) (i : Nat) : Char := s.getD i nulChar

/-- Read byte `i` of the raw (non NUL-terminated) input buffer; a read just
past the end of the buffer yields the unspecified byte `pad`. -/
def docByte (pad : Char) (doc : List Char) (i : Nat) : Char := doc.getD i pad

/-- The half-open byte range [a, b) of a buffer. -/
def byteSlice (s : List Char) (a b : Nat) : List Char := (s.drop a).take (b - a)

/-- AsciiStrLen on a modelled C string: bytes before the first NUL. -/
def asciiStrLen (s : List Char) : Nat := (s.takeWhile (fun c => c ≠ nulChar)).length

/-- AsciiStrLen starting from byte `pos` of a modelled C string. -/
def asciiStrLenFrom (s : List Char) (pos : Nat) : Nat := asciiStrLen (s.drop pos)

/-- EFI_STATUS codes used by DriverXmlLib.  All codes other than `success`
are EFI error codes (high bit set in C), so EFI_ERROR(s) ↔ s ≠ success. -/
inductive Status where
  | success
  | notFound
  | invalidParameter
  | deviceError
  | endOfFile
  | aborted
  | unsupported
  | outOfResources
deriving DecidableEq, Repr

/-- XML_DATA_TYPE from DriverXmlLib.h, same constructor order as the C enum
(XmlNothing = 0, XmlEmptyTag = 1, XmlTag = 2, XmlCloseTag = 3,
XmlAttribute = 4, XmlChar = 5, XmlPi = 6, XmlDecl = 7, XmlComment = 8). -/
inductive DataTy where
  | nothing
  | emptyTag
  | tag
  | closeTag
  | attribute
  | char
  | pi
  | decl
  | comment
deriving DecidableEq, Repr

/-- IsAsciiWhitespace (DriverXmlStringHandlers.c): space, tab, CR, LF. -/
def IsAsciiWhitespace (c : Char) : Bool :=
  c = ' ' ∨ c = '\t' ∨ c = '\r' ∨ c = '\n'

/-- IsAsciiNameStartChar: A-Z, a-z, underscore, colon. -/
def IsAsciiNameStartChar (c : Char) : Bool :=
  ('A' ≤ c ∧ c ≤ 'Z') ∨ ('a' ≤ c ∧ c ≤ 'z') ∨ c = '_' ∨ c = ':'

/-- IsAsciiNameChar: a name-start character, digit, hyphen or dot. -/
def IsAsciiNameChar (c : Char) : Bool :=
  IsAsciiNameStartChar c ∨ ('0' ≤ c ∧ c ≤ '9') ∨ c = '-' ∨ c = '.'

/-- IsAsciiXmlChar: tab, LF, CR, or printable ASCII 0x20..0x7E. -/
def IsAsciiXmlChar (c : Char) : Bool :=
  c = '\t' ∨ c = '\n' ∨ c = '\r' ∨ (' ' ≤ c ∧ c ≤ '~')

/-- IsStrLenAtLeast(Str, MinLen): the C loop tests indices 0..MinLen
inclusive for a NUL, so it actually demands MinLen+1 non-NUL bytes. -/
def IsStrLenAtLeast (s : List Char) (minLen : Nat) : Bool :=
  (List.range (minLen + 1)).all (fun i => chGet s i ≠ nulChar)

/-- IsAsciiXmlTag applied to the buffer suffix starting at the position of
interest (the C function receives a CHAR8* at that position). -/
def IsAsciiXmlTag (s : List Char) : Bool :=
  if ¬ IsStrLenAtLeast s 3 then false
  else if chGet s 0 ≠ '<' then false
  else if chGet s 1 = '/' then IsAsciiNameStartChar (chGet s 2)
  else IsAsciiNameStartChar (chGet s 1)

/-- IsAsciiEmptyElementXmlTag: operates on a NUL-terminated chunk; checks
the last two bytes before the terminator are "/>". -/
def IsAsciiEmptyElementXmlTag (s : List Char) : Bool :=
  let len := asciiStrLen s
  if len < 4 then false
  else if chGet s (len - 1) ≠ '>' then false
  else if chGet s (len - 2) ≠ '/' then false
  else true

/-- IsAsciiXmlCloseTag: "<" then "/" then a name-start character. -/
def IsAsciiXmlCloseTag (s : List Char) : Bool :=
  if ¬ IsStrLenAtLeast s 3 then false
  else if chGet s 0 ≠ '<' then false
  else if chGet s 1 = '/' then IsAsciiNameStartChar (chGet s 2)
  else false

/-- IsAsciiXmlTagEndStr at byte index `i` of string `s`: ">" or "/>". -/
def IsAsciiXmlTagEndStrAt (s : List Char) (i : Nat) : Bool :=
  chGet s i = '>' ∨ (chGet s i = '/' ∧ chGet s (i + 1) = '>')

/-- IsAsciiPI: "<?" at the start (needs 3 non-NUL bytes per
IsStrLenAtLeast(Str, 2)). -/
def IsAsciiPI (s : List Char) : Bool :=
  if ¬ IsStrLenAtLeast s 2 then false
  else if chGet s 0 ≠ '<' then false
  else if chGet s 1 ≠ '?' then false
  else true

/-- IsAsciiDeclaration: "<!" not followed by '-' (comments excluded). -/
def IsAsciiDeclaration (s : List Char) : Bool :=
  if ¬ IsStrLenAtLeast s 2 then false
  else if chGet s 0 ≠ '<' then false
  else if chGet s 1 ≠ '!' then false
  else if chGet s 2 = '-' then false
  else true

/-- IsAsciiComment: starts with "<!--". -/
def IsAsciiComment (s : List Char) : Bool :=
  if ¬ IsStrLenAtLeast s 4 then false
  else if chGet s 0 ≠ '<' then false
  else if chGet s 1 ≠ '!' then false
  else if chGet s 2 ≠ '-' then false
  else if chGet s 3 ≠ '-' then false
  else true

example : IsAsciiXmlTag ("<ab>x".toList) = true := by decide
example : IsAsciiXmlTag ("<a>".toList) = false := by decide
example : IsAsciiXmlCloseTag ("</b>".toList) = true := by decide
example : IsAsciiEmptyElementXmlTag ("<a/>".toList) = true := by decide

/-! ## Chunk extractor (AsciiExtract* in DriverXmlStringHandlers.c)

Scanning loops are written with an explicit fuel argument; every call site
passes fuel larger than the number of bytes the C loop can visit, so the
fuel never runs out on the embedded control flow. -/

/-- Loop of AsciiExtractPI: advance until "?>" is seen one byte ahead,
scanning only while the cursor is below EndOfData - 3.  Returns the final
(Length, LocalPtr). -/
def piScan (doc : List Char) : Nat → Nat → Nat → Nat × Nat
  | 0, p, len => (len, p)
  | fuel + 1, p, len =>
    if p < doc.length - 3 then
      let p1 := p + 1
      let len1 := len + 1
      if chGet doc p1 = '?' ∧ chGet doc (p1 + 1) = '>' then (len1 + 2, p1 + 2)
      else piScan doc fuel p1 len1
    else (len, p)

/-- AsciiExtractPI: returns (status, chunk copy, new OperationPtr).
On the (dead, see claim C7) EFI_END_OF_FILE path the cursor is unchanged. -/
def AsciiExtractPI (doc : List Char) (op : Nat) : Status × List Char × Nat :=
  let endP := doc.length
  let (len, p) := piScan doc (endP + 2) op 0
  if p > endP then (Status.endOfFile, [], op)
  else (Status.success, byteSlice doc op (op + len), p)

/-- Loop of AsciiExtractComment: advance until "-->" at the cursor. -/
def commentScan (doc : List Char) : Nat → Nat → Nat → Nat × Nat
  | 0, p, len => (len, p)
  | fuel + 1, p, len =>
    if p < doc.length - 3 then
      let p1 := p + 1
      let len1 := len + 1
      if chGet doc p1 = '-' ∧ chGet doc (p1 + 1) = '-' ∧ chGet doc (p1 + 2) = '>' then
        (len1 + 3, p1 + 3)
      else commentScan doc fuel p1 len1
    else (len, p)

/-- AsciiExtractComment. -/
def AsciiExtractComment (doc : List Char) (op : Nat) : Status × List Char × Nat :=
  let endP := doc.length
  let (len, p) := commentScan doc (endP + 2) op 0
  if p > endP then (Status.endOfFile, [], op)
  else (Status.success, byteSlice doc op (op + len), p)

/-- Loop of AsciiExtractBoxedData: advance until "]]>" at the cursor. -/
def boxedScan (doc : List Char) : Nat → Nat → Nat → Nat × Nat
  | 0, p, len => (len, p)
  | fuel + 1, p, len =>
    if p < doc.length - 3 then
      let p1 := p + 1
      let len1 := len + 1
      if chGet doc p1 = ']' ∧ chGet doc (p1 + 1) = ']' ∧ chGet doc (p1 + 2) = '>' then
        (len1 + 3, p1 + 3)
      else boxedScan doc fuel p1 len1
    else (len, p)

/-- AsciiExtractBoxedData. -/
def AsciiExtractBoxedData (doc : List Char) (op : Nat) : Status × List Char × Nat :=
  let endP := doc.length
  let (len, p) := boxedScan doc (endP + 2) op 0
  if p > endP then (Status.endOfFile, [], op)
  else (Status.success, byteSlice doc op (op + len), p)

/-- Loop of the plain-declaration path of AsciiExtractDeclaration:
advance until '>' at the cursor, scanning below EndOfData - 3. -/
def declScan (doc : List Char) : Nat → Nat → Nat → Nat × Nat
  | 0, p, len => (len, p)
  | fuel + 1, p, len =>
    if p < doc.length - 3 then
      let p1 := p + 1
      let len1 := len + 1
      if chGet doc p1 = '>' then (len1, p1)
      else declScan doc fuel p1 len1
    else (len, p)

/-- AsciiExtractDeclaration: dispatches "<![..." to AsciiExtractBoxedData
and "<!-..." to AsciiExtractComment, otherwise scans to the first '>'. -/
def AsciiExtractDeclaration (doc : List Char) (op : Nat) : Status × List Char × Nat :=
  if chGet doc (op + 2) = '[' then AsciiExtractBoxedData doc op
  else if chGet doc (op + 2) = '-' then AsciiExtractComment doc op
  else
    let endP := doc.length
    let (len, p) := declScan doc (endP + 2) op 0
    if p > endP then (Status.endOfFile, [], op)
    else (Status.success, byteSlice doc op (op + len), p + 1)

/-- Loop of AsciiExtractXmlTag: advance until '>' at the cursor.  The '>'
test happens after the increment, so when no '>' exists in the buffer the
loop tests the unspecified byte just past EndOfData (`pad`). -/
def tagScan (pad : Char) (doc : List Char) : Nat → Nat → Nat → Nat × Nat
  | 0, p, len => (len, p)
  | fuel + 1, p, len =>
    if p < doc.length then
      let p1 := p + 1
      let len1 := len + 1
      if docByte pad doc p1 = '>' then (len1 + 1, p1 + 1)
      else tagScan pad doc fuel p1 len1
    else (len, p)

/-- AsciiExtractXmlTag (covers open, close and empty tags). -/
def AsciiExtractXmlTag (pad : Char) (doc : List Char) (op : Nat) :
    Status × List Char × Nat :=
  let endP := doc.length
  let (len, p) := tagScan pad doc (endP + 2) op 0
  if p > endP then (Status.endOfFile, [], op)
  else (Status.success, byteSlice doc op (op + len), p)

/-- Loop of AsciiExtractCharData: advance until '<' at the cursor (tested
after the increment, so the byte at EndOfData is read through `pad`). -/
def cdScan (pad : Char) (doc : List Char) : Nat → Nat → Nat → Nat × Nat
  | 0, p, len => (len, p)
  | fuel + 1, p, len =>
    if p < doc.length then
      let p1 := p + 1
      let len1 := len + 1
      if docByte pad doc p1 = '<' then (len1, p1)
      else cdScan pad doc fuel p1 len1
    else (len, p)

/-- AsciiExtractCharData: always succeeds; the cursor is clamped to
EndOfData. -/
def AsciiExtractCharData (pad : Char) (doc : List Char) (op : Nat) :
    Status × List Char × Nat :=
  let endP := doc.length
  let (len, p) := cdScan pad doc (endP + 2) op 0
  let chunk := byteSlice doc op (op + len)
  (Status.success, chunk, if p > endP then endP else p)

/-- Whitespace loop at the top of AsciiExtractMarkupOrText: advances while
the byte under the cursor is whitespace; the in-loop bound check stops it
as soon as the cursor passes EndOfData. -/
def wsScanDoc (pad : Char) (doc : List Char) : Nat → Nat → Nat
  | 0, i => i
  | fuel + 1, i =>
    if i > doc.length then i
    else if IsAsciiWhitespace (docByte pad doc i) then wsScanDoc pad doc fuel (i + 1)
    else i

/-- AsciiExtractMarkupOrText: classify and extract the next chunk.
Returns (status, chunk, new OperationPtr, XML_DATA_TYPE).

`none` marks the undefined-behaviour path in which a markup sub-extractor
reports EFI_END_OF_FILE: the source then classifies and hands back the
caller's uninitialized chunk pointer.  With pad = NUL that path is
unreachable (the sub-extractors' end-of-file checks never fire, see C7).

Faithful quirks kept from the source: the sub-extractor status is
discarded (the markup branch returns EFI_SUCCESS unless the cursor passed
EndOfData); the character-data branch starts from the cursor position
before the whitespace skip; the markup branch reports EFI_DEVICE_ERROR
when fewer than 4 bytes remain. -/
def AsciiExtractMarkupOrText (pad : Char) (doc : List Char) (op : Nat) :
    Option (Status × List Char × Nat × DataTy) :=
  let endP := doc.length
  if op > endP then some (Status.endOfFile, [], op, DataTy.nothing)
  else
    let ws := wsScanDoc pad doc (endP + 2) op
    if ws > endP then some (Status.endOfFile, [], op, DataTy.nothing)
    else if docByte pad doc ws = '<' then
      -- OperationPtr := StrStart (whitespace consumed)
      if endP - ws < 4 then some (Status.deviceError, [], ws, DataTy.nothing)
      else if IsAsciiComment (doc.drop ws) then
        match AsciiExtractComment doc ws with
        | (Status.success, chunk, opN) =>
          if opN > endP then some (Status.endOfFile, chunk, endP, DataTy.comment)
          else some (Status.success, chunk, opN, DataTy.comment)
        | _ => none
      else if IsAsciiPI (doc.drop ws) then
        match AsciiExtractPI doc ws with
        | (Status.success, chunk, opN) =>
          if opN > endP then some (Status.endOfFile, chunk, endP, DataTy.pi)
          else some (Status.success, chunk, opN, DataTy.pi)
        | _ => none
      else if IsAsciiDeclaration (doc.drop ws) then
        match AsciiExtractDeclaration doc ws with
        | (Status.success, chunk, opN) =>
          if opN > endP then some (Status.endOfFile, chunk, endP, DataTy.decl)
          else some (Status.success, chunk, opN, DataTy.decl)
        | _ => none
      else if IsAsciiXmlTag (doc.drop ws) then
        match AsciiExtractXmlTag pad doc ws with
        | (Status.success, chunk, opN) =>
          let ty :=
            if IsAsciiXmlCloseTag chunk then DataTy.closeTag
            else if IsAsciiEmptyElementXmlTag chunk then DataTy.emptyTag
            else DataTy.tag
          if opN > endP then some (Status.endOfFile, chunk, endP, ty)
          else some (Status.success, chunk, opN, ty)
        | _ => none
      else
        -- fallback: extracted as character data, type stays XmlNothing
        match AsciiExtractCharData pad doc ws with
        | (_, chunk, opN) =>
          if opN > endP then some (Status.endOfFile, chunk, endP, DataTy.nothing)
          else some (Status.success, chunk, opN, DataTy.nothing)
    else
      -- not markup: character data from the pre-whitespace cursor
      match AsciiExtractCharData pad doc op with
      | (_, chunk, opN) => some (Status.success, chunk, opN, DataTy.char)

example :
    AsciiExtractMarkupOrText nulChar ("<ab>".toList) 0 =
      some (Status.success, "<ab>".toList, 4, DataTy.tag) := by decide
example :
    AsciiExtractMarkupOrText nulChar ("hi</b>".toList) 0 =
      some (Status.success, "hi".toList, 2, DataTy.char) := by decide
example :
    AsciiExtractMarkupOrText nulChar ("<a/> ".toList) 0 =
      some (Status.success, "<a/>".toList, 4, DataTy.emptyTag) := by decide

/-! ## String helpers: tag names, PI data, attributes -/

/-- First index at or after `i`, below `len`, holding whitespace
(the tag-name skip loop of IsAsciiXmlTagWithAttributes). -/
def wsFindIdx (s : List Char) (len : Nat) : Nat → Nat → Nat
  | 0, i => i
  | fuel + 1, i =>
    if i < len then
      if IsAsciiWhitespace (chGet s i) then i else wsFindIdx s len fuel (i + 1)
    else i

/-- Skip whitespace with the bound tested before the byte
(`while (idx < End) { if (!ws) break; idx++; }`). -/
def wsSkipBounded (s : List Char) (len : Nat) : Nat → Nat → Nat
  | 0, i => i
  | fuel + 1, i =>
    if i < len then
      if ¬ IsAsciiWhitespace (chGet s i) then i else wsSkipBounded s len fuel (i + 1)
    else i

/-- Skip whitespace with the byte read before the bound
(`while (ws(s[idx]) && idx < End) idx++;`). -/
def wsSkipRead (s : List Char) (len : Nat) : Nat → Nat → Nat
  | 0, i => i
  | fuel + 1, i =>
    if IsAsciiWhitespace (chGet s i) ∧ i < len then wsSkipRead s len fuel (i + 1)
    else i

/-- Name loop shared by AsciiGetTagNameFromElement and AsciiGetPIData:
advance while the byte is not whitespace, is a name character, and the
absolute index stays below `bound`. -/
def nameScanTag (s : List Char) (base bound : Nat) : Nat → Nat → Nat
  | 0, el => el
  | fuel + 1, el =>
    if ¬ IsAsciiWhitespace (chGet s (base + el)) ∧ IsAsciiNameChar (chGet s (base + el))
        ∧ base + el < bound then
      nameScanTag s base bound fuel (el + 1)
    else el

/-- AsciiGetTagNameFromElement: extract the element name from a raw tag
chunk.  `none` is the EFI_INVALID_PARAMETER outcome (the out-parameter is
then left unset by the source). -/
def AsciiGetTagNameFromElement (chunk : List Char) : Option (List Char) :=
  if chGet chunk 0 ≠ '<' then none
  else
    let tagLen := asciiStrLen chunk
    let base := if chGet chunk 1 = '/' then 2 else 1
    if IsAsciiNameStartChar (chGet chunk base) then
      let el := nameScanTag chunk base tagLen (chunk.length + 2) 1
      if ¬ IsAsciiWhitespace (chGet chunk (base + el))
          ∧ ¬ IsAsciiXmlTagEndStrAt chunk (base + el) then none
      else some (byteSlice chunk base (base + el))
    else none

/-- Data loop of AsciiGetPIData: advance while the byte is a valid XML
character, stopping at "?>". -/
def piDataScan (chunk : List Char) (d0 : Nat) : Nat → Nat → Nat
  | 0, dl => dl
  | fuel + 1, dl =>
    if IsAsciiXmlChar (chGet chunk (d0 + dl)) then
      if chGet chunk (d0 + dl) = '?' ∧ chGet chunk (d0 + dl + 1) = '>' then dl
      else piDataScan chunk d0 fuel (dl + 1)
    else dl

/-- AsciiGetPIData: extract (target, optional data) from a PI chunk.
`none` is the EFI_INVALID_PARAMETER outcome; the caller DriverXmlAddPI
then stores NULL for both fields. -/
def AsciiGetPIData (chunk : List Char) : Option (List Char × Option (List Char)) :=
  let piLen := asciiStrLen chunk
  if chGet chunk 0 ≠ '<' ∨ chGet chunk 1 ≠ '?' then none
  else if IsAsciiNameStartChar (chGet chunk 2) then
    let tl := nameScanTag chunk 2 piLen (chunk.length + 2) 1
    if ¬ IsAsciiWhitespace (chGet chunk (2 + tl))
        ∧ ¬ IsAsciiXmlTagEndStrAt chunk (2 + tl) then none
    else
      let target := byteSlice chunk 2 (2 + tl)
      let d0 := wsSkipBounded chunk piLen (chunk.length + 2) (2 + tl)
      if chGet chunk d0 = '?' ∧ chGet chunk (d0 + 1) = '>' then some (target, none)
      else
        let dl := piDataScan chunk d0 (chunk.length + 2) 0
        if 1 ≤ dl then some (target, some (byteSlice chunk d0 (d0 + dl)))
        else some (target, none)
  else none

/-- Result record of AsciiExtractAttribute: the returned EFI_STATUS, the
extracted name and value (NULL outputs are `none`), and the updated
InOutStr position (unchanged on EFI_INVALID_PARAMETER, where the source
leaves the in-out pointer untouched). -/
structure AttrRes where
  status : Status
  name : Option (List Char)
  value : Option (List Char)
  pos : Nat
deriving DecidableEq, Repr

/-- Attribute-name loop: advance while below InputEnd and the byte is
neither '=' nor whitespace. -/
def attrNameScan (s : List Char) (strEnd : Nat) : Nat → Nat → Nat
  | 0, i => i
  | fuel + 1, i =>
    if i < strEnd then
      if chGet s i = '=' then i
      else if IsAsciiWhitespace (chGet s i) then i
      else attrNameScan s strEnd fuel (i + 1)
    else i

/-- Quoted-value loop: advance while below InputEnd until the opening
quote character `q` reappears. -/
def quoteScan (s : List Char) (strEnd : Nat) (q : Char) : Nat → Nat → Nat
  | 0, i => i
  | fuel + 1, i =>
    if i < strEnd then
      if chGet s i = q then i else quoteScan s strEnd q fuel (i + 1)
    else i

/-- AsciiExtractAttribute: extract one name/value pair starting at byte
`pos` of the NUL-terminated tag chunk `s`.

Faithful details: InputEnd is the position of the chunk's NUL terminator;
leading whitespace is skipped; reaching the tag terminator (">" or "/>")
is EFI_NOT_FOUND; after the name, at most one whitespace byte is skipped
before the required '='; whitespace after the '=' is skipped freely; the
value runs to the first reappearance of the same quote character that
opened it; a value of zero bytes leaves the value output NULL. -/
def AsciiExtractAttribute (s : List Char) (pos : Nat) : AttrRes :=
  let strEnd := pos + asciiStrLenFrom s pos
  let fuel := s.length + 2
  let i := wsSkipBounded s strEnd fuel pos
  if IsAsciiXmlTagEndStrAt s i then ⟨Status.notFound, none, none, i⟩
  else
    let nameEnd := attrNameScan s strEnd fuel i
    let nm := byteSlice s i nameEnd
    let b := if IsAsciiWhitespace (chGet s nameEnd) then nameEnd + 1 else nameEnd
    if chGet s b ≠ '=' then ⟨Status.invalidParameter, none, none, pos⟩
    else
      let c := wsSkipRead s strEnd fuel (b + 1)
      if chGet s c ≠ '"' ∧ chGet s c ≠ squote then
        ⟨Status.invalidParameter, none, none, pos⟩
      else
        let q := chGet s c
        let m := quoteScan s strEnd q fuel (c + 1)
        if chGet s m ≠ q then ⟨Status.invalidParameter, none, none, pos⟩
        else
          ⟨Status.success, some nm,
            if c + 1 < m then some (byteSlice s (c + 1) m) else none, m + 1⟩

/-- IsAsciiXmlTagWithAttributes: `some i` returns the byte index of the
first attribute inside the chunk (the FirstAttribute out-parameter),
`none` is the FALSE outcome. -/
def IsAsciiXmlTagWithAttributes (chunk : List Char) : Option Nat :=
  let xmlStrLen := asciiStrLen chunk
  let fuel := chunk.length + 2
  if ¬ IsAsciiXmlTag chunk then none
  else
    let i := wsFindIdx chunk xmlStrLen fuel 0
    if ¬ (i < xmlStrLen) then none
    else
      let i2 := wsSkipBounded chunk xmlStrLen fuel i
      if IsAsciiXmlTagEndStrAt chunk i2 then none
      else some i2

/-- Loop of ParseAttributes (DriverXmlParser.c): collect attributes until
AsciiExtractAttribute stops.  EFI_NOT_FOUND is the normal termination
status and is returned as such (the source's `return Status`). -/
def ParseAttributesGo (chunk : List Char) :
    Nat → Nat → List (List Char × Option (List Char)) →
    Option (Status × List (List Char × Option (List Char)))
  | 0, _, _ => none
  | fuel + 1, pos, acc =>
    let r := AsciiExtractAttribute chunk pos
    match r.status, r.name with
    | Status.success, some nm => ParseAttributesGo chunk fuel r.pos (acc ++ [(nm, r.value)])
    | Status.success, none => none
    | Status.notFound, _ => some (Status.notFound, acc)
    | _, _ => some (Status.invalidParameter, acc)

/-- ParseAttributes: EFI_SUCCESS with no attributes when the chunk has
none, otherwise the collection loop above. -/
def ParseAttributes (chunk : List Char) :
    Option (Status × List (List Char × Option (List Char))) :=
  match IsAsciiXmlTagWithAttributes chunk with
  | none => some (Status.success, [])
  | some p0 => ParseAttributesGo chunk (chunk.length + 2) p0 []

example : AsciiGetTagNameFromElement ("<ab>".toList) = some ("ab".toList) := by decide
example : AsciiGetTagNameFromElement ("</b>".toList) = some ("b".toList) := by decide
example :
    ParseAttributes ("<a x=\"1\">".toList) =
      some (Status.notFound, [("x".toList, some ("1".toList))]) := by decide
example : ParseAttributes ("<ab>".toList) = some (Status.success, []) := by decide

/-! ## Tree builder (ParseBranch / DriverXmlParse in DriverXmlParser.c) -/

/-- One node of the parsed tree.  Attributes are (name, optional data)
pairs in insertion order, mirroring DRIVER_XML_ATTRIBUTE entries; a PI
node keeps the optional target/data (NULL when AsciiGetPIData failed,
the caller stores the NULL-initialized locals, DriverXmlParser.c:473). -/
inductive DxNode where
  | tag (name : List Char) (attrs : List (List Char × Option (List Char)))
        (children : List DxNode)
  | emptyTag (name : List Char) (attrs : List (List Char × Option (List Char)))
  | charData (bytes : List Char) (dataSize : Nat)
  | pi (target : Option (List Char)) (piData : Option (List Char))

/-- The loop of ParseBranch.  Arguments: fuel, document, cursor, the
parent tag's name, children accumulated so far on the parent.  Returns
(returned status, cursor, parent's final child list); `none` marks fuel
exhaustion or one of the undefined-behaviour paths noted below, none of
which are reached on the inputs analyzed in this file.

Faithfully kept from the source:
  * a CloseTag chunk returns EFI_SUCCESS on a byte-exact match with the
    parent's name and EFI_DEVICE_ERROR otherwise;
  * the status of a recursive ParseBranch call for a child tag is
    assigned to the local Status but never examined: the loop simply
    continues with the next chunk (DriverXmlParser.c:569-574);
  * an extractor EFI_END_OF_FILE is EFI_SUCCESS when the parent is named
    "Root" and EFI_END_OF_FILE otherwise; other extractor errors are
    returned as-is;
  * running the cursor to EndOfData exits the loop with EFI_SUCCESS even
    when real tags are still open;
  * a CharacterData child records Xml->OperationPtr - OldOpPtr as its
    size;
  * Declaration and Comment chunks (and the XmlNothing fallback) produce
    no node.

Undefined-behaviour paths mapped to `none`: a failed tag-name extraction
(the source then uses an uninitialized name pointer), and attribute
failure on a tag (the source deletes the just-created child, then for an
open tag recurses into the freed node; for an empty tag the deletion
itself walks an uninitialized attribute-list iterator, see C9). -/
def ParseBranchLoop (doc : List Char) :
    Nat → Nat → List Char → List DxNode → Option (Status × Nat × List DxNode)
  | 0, _, _, _ => none
  | fuel + 1, op, parentName, acc =>
    if op < doc.length then
      match AsciiExtractMarkupOrText nulChar doc op with
      | none => none
      | some (Status.success, chunk, opN, ty) =>
        match ty with
        | DataTy.pi =>
          let node :=
            match AsciiGetPIData chunk with
            | some (t, d) => DxNode.pi (some t) d
            | none => DxNode.pi none none
          ParseBranchLoop doc fuel opN parentName (acc ++ [node])
        | DataTy.decl => ParseBranchLoop doc fuel opN parentName acc
        | DataTy.comment => ParseBranchLoop doc fuel opN parentName acc
        | DataTy.nothing => ParseBranchLoop doc fuel opN parentName acc
        | DataTy.attribute => ParseBranchLoop doc fuel opN parentName acc
        | DataTy.char =>
          ParseBranchLoop doc fuel opN parentName
            (acc ++ [DxNode.charData chunk (opN - op)])
        | DataTy.tag =>
          match AsciiGetTagNameFromElement chunk with
          | none => none
          | some name =>
            match ParseAttributes chunk with
            | none => none
            | some (Status.invalidParameter, _) => none
            | some (_, attrs) =>
              match ParseBranchLoop doc fuel opN name [] with
              | none => none
              | some (_, opZ, kids) =>
                ParseBranchLoop doc fuel opZ parentName
                  (acc ++ [DxNode.tag name attrs kids])
        | DataTy.emptyTag =>
          match AsciiGetTagNameFromElement chunk with
          | none => none
          | some name =>
            match ParseAttributes chunk with
            | none => none
            | some (Status.invalidParameter, _) => none
            | some (_, attrs) =>
              ParseBranchLoop doc fuel opN parentName
                (acc ++ [DxNode.emptyTag name attrs])
        | DataTy.closeTag =>
          match AsciiGetTagNameFromElement chunk with
          | none => none
          | some name =>
            if name = parentName then some (Status.success, opN, acc)
            else some (Status.deviceError, opN, acc)
      | some (Status.endOfFile, _, opN, _) =>
        if parentName = "Root".toList then some (Status.success, opN, acc)
        else some (Status.endOfFile, opN, acc)
      | some (st, _, opN, _) => some (st, opN, acc)
    else some (Status.success, op, acc)

/-- ParseBranch: the guard `Parent->XmlDataType != XmlTag` always passes
here because every parent handed to the model is a Tag node (the Root or
a freshly created child tag), so the body is the loop above started with
the parent's current (empty) child list. -/
def ParseBranch (doc : List Char) (fuel op : Nat) (parentName : List Char) :
    Option (Status × Nat × List DxNode) :=
  ParseBranchLoop doc fuel op parentName []

/-- Driver loop of DriverXmlParse: repeatedly invoke ParseBranch against
the Root until the cursor exhausts the buffer or a call reports an error.
On error the tree out-parameter is left unset (`none`); in every case the
function's C return value is EFI_SUCCESS (DriverXmlParser.c:696 returns
the literal constant, not the accumulated Status). -/
def DriverXmlParseGo (doc : List Char) :
    Nat → Nat → List DxNode → Option (Status × Option DxNode)
  | 0, _, _ => none
  | fuel + 1, op, acc =>
    if op < doc.length then
      match ParseBranch doc (doc.length + 2) op ("Root".toList) with
      | none => none
      | some (st, opN, kids) =>
        if st = Status.success then DriverXmlParseGo doc fuel opN (acc ++ kids)
        else some (Status.success, none)
    else some (Status.success, some (DxNode.tag ("Root".toList) [] acc))

/-- DriverXmlParse: create the Root tag and drive ParseBranch. -/
def DriverXmlParse (doc : List Char) : Option (Status × Option DxNode) :=
  DriverXmlParseGo doc (doc.length + 2) 0 []

example :
    DriverXmlParse ("<ab></ab>".toList) =
      some (Status.success,
        some (DxNode.tag ("Root".toList) [] [DxNode.tag ("ab".toList) [] []])) := rfl

/-! ## Serializer (DriverWriteXml.c)

The output XML_DOCUMENT is modelled at two levels.  `OutDoc` tracks the
buffer contents, the allocated size and the write cursor as an offset
from the base; it is what the print functions operate on.
`XmlDocPtrState` additionally keeps the raw base and cursor addresses and
is used to state the cursor re-anchoring performed by
ReallocateXmlDocument (claim C8), whose whole point is pointer
arithmetic across a relocation. -/

/-- MAX_TEMP_BUFFER_SIZE. -/
def MAX_TEMP_BUFFER_SIZE : Nat := 128

/-- OUTPUT_DOCUMENT_ALLOCATE_STEP. -/
def OUTPUT_DOCUMENT_ALLOCATE_STEP : Nat := 512

/-- AsciiStrnLenS(String, MaxSize): string length capped at MaxSize. -/
def asciiStrnLenS (s : List Char) (maxSize : Nat) : Nat :=
  min (asciiStrLen s) maxSize

/-- EDK2 AsciiSPrint produces at most BufferSize-1 characters plus a NUL
terminator; each call site below passes the fully expanded format string.
The model returns the produced (possibly truncated) string; its length is
the value AsciiSPrint returns. -/
def asciiSPrintTrunc (bufferSize : Nat) (formatted : List Char) : List Char :=
  formatted.take (bufferSize - 1)

/-- Content-level XML_DOCUMENT for the serializer: buffer bytes (always
`documentSize` of them), the allocated size, and the cursor offset. -/
structure OutDoc where
  data : List Char
  documentSize : Nat
  op : Nat
deriving DecidableEq, Repr

/-- Content level of ReallocateXmlDocument: the uninitialized document
(size 0) is first given a zero-filled buffer of the new size with the
cursor on its base; then in either case the buffer is reallocated to
`newSize` (ReallocatePool copies the old bytes and zero-fills the rest)
and the cursor keeps its offset from the base.  Allocation failure is not
modelled at this level (see ReallocateXmlDocumentAddr for the pointer
level, which includes it). -/
def ReallocateXmlDocument (d : OutDoc) (newSize : Nat) : Status × OutDoc :=
  let d1 :=
    if d.documentSize = 0 then
      { data := List.replicate newSize nulChar, documentSize := newSize, op := 0 }
    else d
  if d.documentSize = 0 ∧ newSize = 0 then (Status.invalidParameter, d)
  else
    (Status.success,
      { data := d1.data.take newSize ++
          List.replicate (newSize - d1.data.length) nulChar,
        documentSize := newSize,
        op := d1.op })

/-- Write `bytes` into the buffer at offset `op` (gBS->CopyMem). -/
def copyMemAt (data : List Char) (op : Nat) (bytes : List Char) : List Char :=
  data.take op ++ bytes ++ data.drop (op + bytes.length)

/-- StringToDocument: length = AsciiStrnLenS(String, MAX_TEMP_BUFFER_SIZE);
when it does not fit in the remaining capacity the buffer grows by the
fixed step when StringLen ≤ 512 and by StringLen + 1 otherwise (the
realloc status is ignored by the source); then the bytes are copied and
the cursor advances. -/
def StringToDocument (s : List Char) (d : OutDoc) : OutDoc :=
  let stringLen := asciiStrnLenS s MAX_TEMP_BUFFER_SIZE
  let documentFreeSize := d.documentSize - d.op
  let d1 :=
    if stringLen > documentFreeSize then
      if stringLen > OUTPUT_DOCUMENT_ALLOCATE_STEP then
        (ReallocateXmlDocument d (d.documentSize + stringLen + 1)).2
      else
        (ReallocateXmlDocument d (d.documentSize + OUTPUT_DOCUMENT_ALLOCATE_STEP)).2
    else d
  { d1 with data := copyMemAt d1.data d1.op (s.take stringLen), op := d1.op + stringLen }

/-- PrintCharData: same growth logic inlined with the recorded DataSize
(not capped), then a straight CopyMem of DataSize bytes of the stored
character data. -/
def PrintCharData (bytes : List Char) (dataSize : Nat) (d : OutDoc) : OutDoc :=
  let documentFreeSize := d.documentSize - d.op
  let d1 :=
    if dataSize > documentFreeSize then
      if dataSize > OUTPUT_DOCUMENT_ALLOCATE_STEP then
        (ReallocateXmlDocument d (d.documentSize + dataSize + 1)).2
      else
        (ReallocateXmlDocument d (d.documentSize + OUTPUT_DOCUMENT_ALLOCATE_STEP)).2
    else d
  { d1 with
    data := copyMemAt d1.data d1.op ((List.range dataSize).map (chGet bytes)),
    op := d1.op + dataSize }

/-- PrintAttribute: AsciiSPrint(TmpBuffer, 128, " %a=\"%a\"", name, data)
with a NULL data pointer printed as the empty string (the source's
ternary), then StringToDocument. -/
def PrintAttribute (a : List Char × Option (List Char)) (d : OutDoc) : OutDoc :=
  let dataStr := match a.2 with | some v => v | none => []
  let piece := [' '] ++ a.1 ++ ['='] ++ ['"'] ++ dataStr ++ ['"']
  StringToDocument (asciiSPrintTrunc MAX_TEMP_BUFFER_SIZE piece) d

/-- PrintPi: AsciiSPrint(TmpBuffer, 128, "<?%a %a?>", target, data); EDK2
prints "<null string>" for a NULL %a argument, which happens when
AsciiGetPIData stored no target or no data. -/
def PrintPi (target piData : Option (List Char)) (d : OutDoc) : OutDoc :=
  let ts := match target with | some v => v | none => "<null string>".toList
  let ds := match piData with | some v => v | none => "<null string>".toList
  let piece := ['<', '?'] ++ ts ++ [' '] ++ ds ++ ['?', '>']
  StringToDocument (asciiSPrintTrunc MAX_TEMP_BUFFER_SIZE piece) d

/-- PrintEmptyTag: "<name", the attributes (via the PrintData dispatch,
which resolves to PrintAttribute for each XmlAttribute entry), then "/>"
printed into the same temp buffer whose remaining size is 128 minus the
length produced for "<name". -/
def PrintEmptyTag (name : List Char) (attrs : List (List Char × Option (List Char)))
    (d : OutDoc) : OutDoc :=
  let piece1 := asciiSPrintTrunc MAX_TEMP_BUFFER_SIZE ('<' :: name)
  let bufferOffset := piece1.length
  let d1 := StringToDocument piece1 d
  let d2 := if attrs.length > 0 then attrs.foldl (fun dd a => PrintAttribute a dd) d1 else d1
  StringToDocument (asciiSPrintTrunc (MAX_TEMP_BUFFER_SIZE - bufferOffset) ['/', '>']) d2

/-- Body of PrintTag, parameterized by the child-walking function so the
fuel-indexed recursion below stays structural.  PrintTag emits "<name",
the attributes (via the PrintData dispatch, which resolves to
PrintAttribute), ">", the children in list order, then "</name>" printed
with AsciiSPrint into the reused 128-byte temp buffer whose size argument
is 128 minus the length of the earlier "<name" output
(DriverWriteXml.c:284-289). -/
def PrintTagGo (walk : List DxNode → OutDoc → Option OutDoc)
    (name : List Char) (attrs : List (List Char × Option (List Char)))
    (children : List DxNode) (d : OutDoc) : Option OutDoc :=
  let piece1 := asciiSPrintTrunc MAX_TEMP_BUFFER_SIZE ('<' :: name)
  let bufferOffset := piece1.length
  let d1 := StringToDocument piece1 d
  let d2 := if attrs.length > 0 then attrs.foldl (fun dd a => PrintAttribute a dd) d1 else d1
  let d3 := StringToDocument ['>'] d2
  let d4 := if children.length > 0 then walk children d3 else some d3
  match d4 with
  | none => none
  | some d5 =>
    some (StringToDocument
      (asciiSPrintTrunc (MAX_TEMP_BUFFER_SIZE - bufferOffset)
        ('<' :: '/' :: (name ++ ['>'])))
      d5)

/-- Combined recursion for PrintData (on a node, `Sum.inl`) and
PrintWalkBranch (on a child list, `Sum.inr`), indexed by fuel so that the
definition is structural and computable by the kernel.  PrintData is the
handler-table dispatch of DriverWriteXml.c:473: each worker rejects
foreign XmlDataType values, so the net effect is dispatch on the type. -/
def PrintStep : Nat → Sum DxNode (List DxNode) → OutDoc → Option OutDoc
  | 0, _, _ => none
  | fuel + 1, Sum.inl n, d =>
    match n with
    | DxNode.tag name attrs children =>
      PrintTagGo (fun l dd => PrintStep fuel (Sum.inr l) dd) name attrs children d
    | DxNode.emptyTag name attrs => some (PrintEmptyTag name attrs d)
    | DxNode.charData bytes dataSize => some (PrintCharData bytes dataSize d)
    | DxNode.pi target piData => some (PrintPi target piData d)
  | _ + 1, Sum.inr [], d => some d
  | fuel + 1, Sum.inr (n :: rest), d =>
    match PrintStep fuel (Sum.inl n) d with
    | none => none
    | some d2 => PrintStep fuel (Sum.inr rest) d2

/-- PrintData with explicit fuel (larger than the subtree depth). -/
def PrintData (fuel : Nat) (n : DxNode) (d : OutDoc) : Option OutDoc :=
  PrintStep fuel (Sum.inl n) d

/-- PrintWalkBranch with explicit fuel. -/
def PrintWalkBranch (fuel : Nat) (l : List DxNode) (d : OutDoc) : Option OutDoc :=
  PrintStep fuel (Sum.inr l) d

/-- PrintTag with explicit fuel for the walk over the children. -/
def PrintTag (fuel : Nat) (name : List Char)
    (attrs : List (List Char × Option (List Char)))
    (children : List DxNode) (d : OutDoc) : Option OutDoc :=
  PrintTagGo (fun l dd => PrintStep fuel (Sum.inr l) dd) name attrs children d

/-- The byte sequence a caller reads out of a rendered document: the
bytes from the buffer base up to the cursor. -/
def renderedBytes (d : OutDoc) : List Char := d.data.take d.op

example :
    (PrintData 9 (DxNode.emptyTag ("a".toList) []) ⟨[], 0, 0⟩).map renderedBytes =
      some ("<a/>".toList) := rfl

example :
    DriverXmlParse ("<a x=\"1\"><b>hi</b></a>".toList) =
      some (Status.success,
        some (DxNode.tag ("Root".toList) []
          [DxNode.tag ("a".toList) [("x".toList, some ("1".toList))]
            [DxNode.tag ("b".toList) [] [DxNode.charData ("hi".toList) 2]]])) := rfl

example :
    (PrintData 9
        (DxNode.tag ("a".toList) [("x".toList, some ("1".toList))]
          [DxNode.tag ("b".toList) [] [DxNode.charData ("hi".toList) 2]])
        ⟨[], 0, 0⟩).map renderedBytes =
      some ("<a x=\"1\"><b>hi</b></a>".toList) := rfl

/-! ## DriverXmlApi.c: GetXmlTagByName -/

/-- GetXmlTagByName (DriverXmlApi.c:126-173), with fuel ahead of the C
arguments (any fuel above the tree depth is enough).

The C loop body ends in an unconditional `return EFI_NOT_FOUND`
(line 170), so only the first element of the list is ever examined.  The
model returns `some (status, written)` where `written` is the value, if
any, stored through the OutputTag pointer during the call (a recursive
call can store a node even though the outer call then returns
EFI_NOT_FOUND, because the recursion's status is discarded at
line 164-169).  The outer `none` marks the undefined-behaviour path in
which the first element is neither a Tag nor an EmptyTag: the local
`Tag` variable is then read uninitialized by the name comparison at
line 156. -/
def GetXmlTagByName : Nat → List Char → List DxNode → Option (Status × Option DxNode)
  | 0, _, _ => none
  | _ + 1, _, [] => some (Status.notFound, none)
  | fuel + 1, tagName, DxNode.tag name attrs children :: _ =>
    if name = tagName then some (Status.success, some (DxNode.tag name attrs children))
    else if 0 < children.length then
      match GetXmlTagByName fuel tagName children with
      | none => none
      | some (_, written) => some (Status.notFound, written)
    else some (Status.notFound, none)
  | _ + 1, tagName, DxNode.emptyTag name attrs :: _ =>
    if name = tagName then some (Status.success, some (DxNode.emptyTag name attrs))
    else some (Status.notFound, none)
  | _ + 1, _, _ :: _ => none

example :
    GetXmlTagByName 9 ("b".toList)
        [DxNode.tag ("a".toList) [] [], DxNode.tag ("b".toList) [] []] =
      some (Status.notFound, none) := rfl

/-! ## Pointer-level view of ReallocateXmlDocument (for the cursor
re-anchoring of claim C8) -/

/-- Raw-address view of XML_DOCUMENT: base address of the buffer, its
size, and the absolute address of OperationPtr. -/
structure XmlDocPtrState where
  xmlDocument : Nat
  documentSize : Nat
  operationPtr : Nat
deriving DecidableEq, Repr

/-- Address-level ReallocateXmlDocument (DriverWriteXml.c:73-119).
`initBase` is the address AllocateZeroPool hands out on the
uninitialized-document path; `newBase` is where ReallocatePool relocates
the buffer (`none` = allocation failure, EFI_OUT_OF_RESOURCES, with the
document left as it stood after the possible initialization).  The
cursor offset is computed with the UINTN subtraction
OperationPtr - XmlDocument and re-applied to the new base; both are
taken mod 2^64 exactly as 64-bit pointer arithmetic would. -/
def ReallocateXmlDocumentAddr (s : XmlDocPtrState) (newSize : Nat)
    (initBase : Nat) (newBase : Option Nat) : Status × XmlDocPtrState :=
  if s.documentSize = 0 ∧ newSize = 0 then (Status.invalidParameter, s)
  else
    let s1 :=
      if s.documentSize = 0 then
        { xmlDocument := initBase % 2 ^ 64, documentSize := newSize,
          operationPtr := initBase % 2 ^ 64 }
      else s
    let opPtrOffset := (s1.operationPtr + 2 ^ 64 - s1.xmlDocument % 2 ^ 64) % 2 ^ 64
    match newBase with
    | none => (Status.outOfResources, s1)
    | some b =>
      (Status.success,
        { xmlDocument := b % 2 ^ 64, documentSize := newSize,
          operationPtr := (b % 2 ^ 64 + opPtrOffset) % 2 ^ 64 })

/-! ## Deletion model (DeleteElementList / DriverXmlDeleteElement)

The intrusive doubly-linked list is modelled at the address level because
DeleteElementList iterates through nodes it has already freed and ends up
treating the list sentinel itself as an element (claim C9).  Addresses
index the `fwd`/`bwd`/`types` tables; address 0 is the LIST_ANCHOR's
ListStart sentinel, other addresses are element nodes.  Because the
structures are packed (#pragma pack(1)) and DRIVER_XML_DATA_HEADER is
LIST_ENTRY followed by XmlDataType while LIST_ANCHOR is LIST_ENTRY
followed by ItemCount, reading XmlDataType of the sentinel address reads
the low 32 bits of ItemCount; `typeRead` encodes exactly that overlay.
XML_DATA_TYPE codes are the C enum values (XmlEmptyTag = 1, XmlTag = 2,
XmlChar = 5). -/

/-- Heap of one LIST_ANCHOR and its (leaf) element nodes, plus the freed
addresses in FreePool order. -/
structure DelState where
  fwd : List Nat
  bwd : List Nat
  types : List Nat
  itemCount : Nat
  freed : List Nat
deriving DecidableEq, Repr

/-- Read the XmlDataType field at address `a`; at the sentinel (address 0)
this reads the low 32 bits of the anchor's ItemCount (packed overlay). -/
def typeRead (s : DelState) (a : Nat) : Nat :=
  if a = 0 then s.itemCount % 2 ^ 32 else s.types.getD a 0

/-- IsNodeAtEnd(List, Node): Node is not the sentinel and is the list's
BackLink. -/
def isNodeAtEnd (s : DelState) (a : Nat) : Bool :=
  a ≠ 0 ∧ s.bwd.getD 0 0 = a

/-- GetNextXmlElement (DriverXmlApi.c:39-61) over the heap: EFI_NOT_FOUND
(`none`) when the current node is at the end, otherwise the node's
ForwardLink — read even when the current node has already been unlinked,
exactly as the source does. -/
def GetNextXmlElement (s : DelState) (a : Nat) : Option Nat :=
  if isNodeAtEnd s a then none else some (s.fwd.getD a 0)

/-- RemoveEntryList(Entry): splice the entry out; its own links are left
in place (stale). -/
def RemoveEntryList (s : DelState) (a : Nat) : DelState :=
  let f := s.fwd.getD a 0
  let b := s.bwd.getD a 0
  let s1 := { s with bwd := s.bwd.set f b }
  { s1 with fwd := s1.fwd.set b f }

/-- DriverXmlDeleteElement (DriverXmlParser.c:218-240) restricted to leaf
elements: the XmlEmptyTag / XmlTag branches (which recurse into attribute
and child lists) are not modelled and yield `none`; for every other type
code the element is unlinked, the anchor's ItemCount is decremented with
64-bit wrap-around, and the element is freed. -/
def DriverXmlDeleteElementLeaf (s : DelState) (a : Nat) : Option DelState :=
  let t := typeRead s a
  if t = 1 ∨ t = 2 then none
  else
    let s1 := RemoveEntryList s a
    some { s1 with itemCount := (s1.itemCount + (2 ^ 64 - 1)) % 2 ^ 64,
                   freed := s1.freed ++ [a] }

/-- Outcome of running the DeleteElementList loop for a bounded number of
iterations. -/
inductive DelRes where
  | fuelOut (s : DelState) (cur : Nat)
  | notModeled
  | done (s : DelState) (st : Status)
deriving DecidableEq, Repr

/-- Loop of DeleteElementList (DriverXmlParser.c:152-157) followed by the
final ItemCount check (line 159): iterate GetNextXmlElement from the
current node and delete whatever it yields.  (The `ChildData == NULL`
sanity check cannot fire: GetNextNode returns a ForwardLink, never NULL.) -/
def DeleteElementListLoop : Nat → DelState → Nat → DelRes
  | 0, s, cur => DelRes.fuelOut s cur
  | fuel + 1, s, cur =>
    match GetNextXmlElement s cur with
    | none => DelRes.done s (if s.itemCount ≠ 0 then Status.aborted else Status.success)
    | some nxt =>
      match DriverXmlDeleteElementLeaf s nxt with
      | none => DelRes.notModeled
      | some s2 => DeleteElementListLoop fuel s2 nxt

/-- DeleteElementList (DriverXmlParser.c:143-163): run the loop from the
sentinel when ItemCount > 0, else fall through to the final check. -/
def DeleteElementList (fuel : Nat) (s : DelState) : DelRes :=
  if 0 < s.itemCount then DeleteElementListLoop fuel s 0
  else DelRes.done s (if s.itemCount ≠ 0 then Status.aborted else Status.success)

/-- Child list of a Tag holding exactly one CharacterData element: the
sentinel is address 0, the element address 1 (fwd/bwd of a one-element
cyclic list), ItemCount 1, XmlChar = 5. -/
def c9Init : DelState :=
  { fwd := [1, 0], bwd := [1, 0], types := [0, 5], itemCount := 1, freed := [] }

example :
    DeleteElementList 3 c9Init =
      DelRes.fuelOut
        { fwd := [0, 0], bwd := [0, 0], types := [0, 5],
          itemCount := 2 ^ 64 - 2, freed := [1, 0, 0] } 0 := by decide

/-- Growth rule stated by the specification for claim C8, written from the
spec's words for comparison with the code: grow "by a fixed increment
(512) if the pending write is smaller than that increment, otherwise by
exactly pending size + 1". -/
def SpecGrowthC8 (pending : Nat) : Nat :=
  if pending < OUTPUT_DOCUMENT_ALLOCATE_STEP then OUTPUT_DOCUMENT_ALLOCATE_STEP
  else pending + 1

/-! ## Claim theorems -/

/-- C1 (code bug): on input "<ab></c>" the ParseBranch invocation for
element "ab" fails with the tag-mismatch error EFI_DEVICE_ERROR, yet
DriverXmlParse returns EFI_SUCCESS to its caller and hands out the tree
(Root with child "ab") through the out-parameter: the terminal status is
not propagated, contradicting the claim and the function's own
documentation.  The status is lost twice: the enclosing ParseBranch never
examines the recursive call's status (DriverXmlParser.c:569-574), and
DriverXmlParse ends with a literal `return EFI_SUCCESS`
(DriverXmlParser.c:696). -/
theorem C1_parse_swallows_branch_error :
    ParseBranch ("<ab></c>".toList) 10 4 ("ab".toList) =
      some (Status.deviceError, 8, []) ∧
    DriverXmlParse ("<ab></c>".toList) =
      some (Status.success,
        some (DxNode.tag ("Root".toList) [] [DxNode.tag ("ab".toList) [] []])) :=
  ⟨rfl, rfl⟩

/-- C2 (code bug): on input "<ab></b>" — a close tag whose name does not
equal the innermost open tag's name — the tree builder does fail
immediately with the tag-mismatch error EFI_DEVICE_ERROR and attempts no
recovery inside that frame, but `parse` then returns EFI_SUCCESS and a
usable tree (Root with child "ab"), not the MALFORMED_INPUT-class error
with no tree that the claim requires. -/
theorem C2_mismatch_not_reported_by_parse :
    ParseBranch ("<ab></b>".toList) 10 4 ("ab".toList) =
      some (Status.deviceError, 8, []) ∧
    DriverXmlParse ("<ab></b>".toList) =
      some (Status.success,
        some (DxNode.tag ("Root".toList) [] [DxNode.tag ("ab".toList) [] []])) :=
  ⟨rfl, rfl⟩

/-- C3 (code bug): on input "<ab>" the element "ab" is opened and never
closed, running exactly to the end of the buffer, yet the ParseBranch
frame for "ab" exits its loop with EFI_SUCCESS (the cursor reached
EndOfData, so the EFI_END_OF_FILE branch is never taken) and
DriverXmlParse returns EFI_SUCCESS together with the tree Root → "ab" —
not the TRUNCATED_INPUT (EFI_END_OF_FILE) error the claim and the
function's own documentation require. -/
theorem C3_truncation_reported_as_success :
    ParseBranch ("<ab>".toList) 6 4 ("ab".toList) = some (Status.success, 4, []) ∧
    DriverXmlParse ("<ab>".toList) =
      some (Status.success,
        some (DxNode.tag ("Root".toList) [] [DxNode.tag ("ab".toList) [] []])) :=
  ⟨rfl, rfl⟩

/-- C4 (confirmed): parsing the exact input <a x="1"><b>hi</b></a>
succeeds and yields Root → Tag "a" with the single attribute x="1" →
Tag "b" → CharacterData "hi" (two bytes), in that child order, and
rendering the subtree rooted at the "a" node emits exactly the bytes
<a x="1"><b>hi</b></a>. -/
theorem C4_scenario_roundtrip :
    DriverXmlParse ("<a x=\"1\"><b>hi</b></a>".toList) =
      some (Status.success,
        some (DxNode.tag ("Root".toList) []
          [DxNode.tag ("a".toList) [("x".toList, some ("1".toList))]
            [DxNode.tag ("b".toList) [] [DxNode.charData ("hi".toList) 2]]])) ∧
    (PrintData 9
        (DxNode.tag ("a".toList) [("x".toList, some ("1".toList))]
          [DxNode.tag ("b".toList) [] [DxNode.charData ("hi".toList) 2]])
        ⟨[], 0, 0⟩).map renderedBytes =
      some ("<a x=\"1\"><b>hi</b></a>".toList) :=
  ⟨rfl, rfl⟩

/-- C5 (code bug): the by-name search is not a full depth-first search.
First conjunct: in the element list [Tag "a" (no children), Tag "b"], a
search for "b" returns EFI_NOT_FOUND without ever visiting the second
sibling, because the loop body of GetXmlTagByName ends in an
unconditional `return EFI_NOT_FOUND` (DriverXmlApi.c:170).  Second
conjunct: in [Tag "a" → Tag "x"] a search for "x" also returns
EFI_NOT_FOUND even though a descendant matches — the recursive call finds
"x" and stores it through the out-pointer, but its status is discarded
(DriverXmlApi.c:164-169). -/
theorem C5_search_stops_after_first_sibling :
    GetXmlTagByName 9 ("b".toList)
        [DxNode.tag ("a".toList) [] [], DxNode.tag ("b".toList) [] []] =
      some (Status.notFound, none) ∧
    GetXmlTagByName 9 ("x".toList)
        [DxNode.tag ("a".toList) [] [DxNode.tag ("x".toList) [] []]] =
      some (Status.notFound, some (DxNode.tag ("x".toList) [] [])) :=
  ⟨rfl, rfl⟩

/-- C7 (code bug): each markup extractor succeeds with a partial chunk
when the buffer ends before its required terminator, instead of failing
with EFI_END_OF_FILE as the claim and the extractors' own documentation
state; the `LocalPtr > EndOfData` checks are unreachable.  Conjuncts:
a tag chunk "<ab" with no '>' is returned successfully as-is (shown for a
NUL and for an ordinary byte past the end of the buffer; only if the
unspecified past-the-end byte happened to be '>' would the overshoot
produce EFI_END_OF_FILE, the last conjunct — either way the documented
contract is broken); a PI "<?ab " with no "?>" yields the partial chunk
"<?"; a declaration "<!ab " with no '>' yields the partial chunk "<!". -/
theorem C7_truncated_chunks_succeed :
    AsciiExtractXmlTag nulChar ("<ab".toList) 0 =
      (Status.success, "<ab".toList, 3) ∧
    AsciiExtractXmlTag 'x' ("<ab".toList) 0 =
      (Status.success, "<ab".toList, 3) ∧
    AsciiExtractXmlTag '>' ("<ab".toList) 0 = (Status.endOfFile, [], 0) ∧
    AsciiExtractPI ("<?ab ".toList) 0 = (Status.success, "<?".toList, 2) ∧
    AsciiExtractDeclaration ("<!ab ".toList) 0 =
      (Status.success, "<!".toList, 3) :=
  ⟨rfl, rfl, rfl, rfl, rfl⟩

/-- C6 (corrected claim refuter): the attribute `x  ="1"` with two
whitespace bytes between the name and the '=' is rejected with
EFI_INVALID_PARAMETER, although under the claim ("tolerating whitespace
around the =") it is a well-formed pair that should be extracted as
name "x", value "1": the source skips at most one whitespace byte before
the '=' (DriverXmlStringHandlers.c:943-952). -/
theorem C6_two_spaces_before_eq_rejected :
    AsciiExtractAttribute ("x  =\"1\">".toList) 0 =
      ⟨Status.invalidParameter, none, none, 0⟩ := rfl

/-- C6 (amended): AsciiExtractAttribute extracts the next name="value" or
name='value' pair tolerating any whitespace before the name and between
the '=' and the opening quote but at most one whitespace byte between the
name and the '='; it captures value bytes up to the same quote character
that opened the value (the other quote character being literal data); it
returns EFI_NOT_FOUND exactly when the position, after the leading
whitespace skip, has reached the tag terminator '>' or '/>'; and it
returns EFI_INVALID_PARAMETER for the structural violations (missing '=',
missing or mismatched quote, or a second whitespace byte before '=').
Conjuncts: the exact characterization of NOT_FOUND for every input, then
concrete runs showing one-space-before-=, one-space-after-=, a
single-quoted value containing a literal double quote, a missing '=' and
a mismatched quote. -/
theorem C6_attribute_extractor_amended :
    (∀ (s : List Char) (pos : Nat),
        (AsciiExtractAttribute s pos).status = Status.notFound ↔
          IsAsciiXmlTagEndStrAt s
            (wsSkipBounded s (pos + asciiStrLenFrom s pos) (s.length + 2) pos) = true) ∧
    AsciiExtractAttribute ("x =\"1\">".toList) 0 =
      ⟨Status.success, some ("x".toList), some ("1".toList), 6⟩ ∧
    AsciiExtractAttribute ("x= \"1\">".toList) 0 =
      ⟨Status.success, some ("x".toList), some ("1".toList), 6⟩ ∧
    AsciiExtractAttribute (['a', '='] ++ [squote] ++ ['x', '"', 'y'] ++ [squote] ++ ['>']) 0 =
      ⟨Status.success, some ("a".toList), some ['x', '"', 'y'], 7⟩ ∧
    AsciiExtractAttribute ("x \"1\">".toList) 0 =
      ⟨Status.invalidParameter, none, none, 0⟩ ∧
    AsciiExtractAttribute (['x', '=', '"', '1'] ++ [squote] ++ ['>']) 0 =
      ⟨Status.invalidParameter, none, none, 0⟩ := by
  refine ⟨?_, rfl, rfl, rfl, rfl, rfl⟩
  intro s pos
  simp only [AsciiExtractAttribute]
  split_ifs <;> simp_all

/-- C8 (corrected claim refuter): a pending character-data write of
exactly 512 bytes into a full buffer of size 10 grows the buffer by 512
(to 522), while the claim — 512 not being smaller than the increment —
prescribes growth by pending + 1 = 513 (to 523): the source only takes
the pending + 1 branch when the pending size strictly exceeds 512
(DriverWriteXml.c:150 and 438 use `>`). -/
theorem C8_boundary_counterexample :
    (PrintCharData (List.replicate 512 'a') 512
        ⟨List.replicate 10 nulChar, 10, 10⟩).documentSize = 522 ∧
    SpecGrowthC8 512 = 513 ∧
    (PrintCharData (List.replicate 512 'a') 512
        ⟨List.replicate 10 nulChar, 10, 10⟩).documentSize ≠ 10 + SpecGrowthC8 512 :=
  ⟨rfl, rfl, by decide⟩

/-- C8 (amended): every overflowing write grows the buffer by the fixed
increment of 512 bytes when the pending write is at most 512 bytes, and
by exactly pending + 1 bytes when it exceeds 512; writes going through
StringToDocument have their pending size capped at 128 first and so
always grow by 512; and after a reallocation of an initialized document
the write cursor sits at the same offset from the (possibly relocated)
new buffer base as it had from the old base. -/
theorem C8_growth_and_reanchor_amended :
    (∀ (bytes : List Char) (n : Nat) (d : OutDoc),
        n > d.documentSize - d.op →
        (PrintCharData bytes n d).documentSize =
          d.documentSize +
            (if n > OUTPUT_DOCUMENT_ALLOCATE_STEP then n + 1
             else OUTPUT_DOCUMENT_ALLOCATE_STEP)) ∧
    (∀ (s : List Char) (d : OutDoc),
        asciiStrnLenS s MAX_TEMP_BUFFER_SIZE > d.documentSize - d.op →
        (StringToDocument s d).documentSize =
          d.documentSize + OUTPUT_DOCUMENT_ALLOCATE_STEP) ∧
    (∀ (s : XmlDocPtrState) (newSize initBase newBase : Nat),
        s.documentSize ≠ 0 →
        s.xmlDocument ≤ s.operationPtr →
        s.operationPtr < 2 ^ 64 →
        newBase + (s.operationPtr - s.xmlDocument) < 2 ^ 64 →
        (ReallocateXmlDocumentAddr s newSize initBase (some newBase)).2.operationPtr -
            (ReallocateXmlDocumentAddr s newSize initBase (some newBase)).2.xmlDocument =
          s.operationPtr - s.xmlDocument ∧
        (ReallocateXmlDocumentAddr s newSize initBase (some newBase)).2.xmlDocument =
          newBase) := by
  refine ⟨?_, ?_, ?_⟩
  · intro bytes n d h
    simp only [PrintCharData, ReallocateXmlDocument, OUTPUT_DOCUMENT_ALLOCATE_STEP] at *
    split_ifs <;> simp_all <;> omega
  · intro s d h
    have hle : asciiStrnLenS s MAX_TEMP_BUFFER_SIZE ≤ 128 := Nat.min_le_right _ _
    simp only [StringToDocument, ReallocateXmlDocument, OUTPUT_DOCUMENT_ALLOCATE_STEP,
      MAX_TEMP_BUFFER_SIZE] at *
    split_ifs <;> simp_all <;> omega
  · intro s newSize initBase newBase hds hb hop hnb
    have hp : (2 : Nat) ^ 64 = 18446744073709551616 := by norm_num
    simp only [ReallocateXmlDocumentAddr, hds, hp] at *
    split_ifs <;> simp_all <;> omega

/-- C8 witness: the amended theorem applied at concrete inputs — an
overflowing 1-byte character-data write into an empty document grows it
by 512; an overflowing string write grows it by 512; reallocating a
document with base 0, size 5, cursor 3 to a buffer relocated at base 100
leaves the cursor at offset 3 from the new base. -/
theorem C8_growth_and_reanchor_amended_witness :
    (PrintCharData [] 1 ⟨[], 0, 0⟩).documentSize =
      0 + (if 1 > OUTPUT_DOCUMENT_ALLOCATE_STEP then 1 + 1
           else OUTPUT_DOCUMENT_ALLOCATE_STEP) ∧
    (StringToDocument ("a".toList) ⟨[], 0, 0⟩).documentSize =
      0 + OUTPUT_DOCUMENT_ALLOCATE_STEP ∧
    ((ReallocateXmlDocumentAddr ⟨0, 5, 3⟩ 9 0 (some 100)).2.operationPtr -
        (ReallocateXmlDocumentAddr ⟨0, 5, 3⟩ 9 0 (some 100)).2.xmlDocument =
      3 - 0 ∧
      (ReallocateXmlDocumentAddr ⟨0, 5, 3⟩ 9 0 (some 100)).2.xmlDocument = 100) :=
  ⟨C8_growth_and_reanchor_amended.1 [] 1 ⟨[], 0, 0⟩ (by decide),
   C8_growth_and_reanchor_amended.2.1 ("a".toList) ⟨[], 0, 0⟩ (by decide),
   C8_growth_and_reanchor_amended.2.2 ⟨0, 5, 3⟩ 9 0 100 (by decide) (by decide)
     (by decide) (by decide)⟩

/-- Helper for C9: once the deletion loop has emptied the list and walked
onto the sentinel (current node = address 0, both sentinel links
self-referring), it can never reach the `done` outcome: the sentinel is
never the list's BackLink, so GetNextXmlElement keeps returning the
sentinel itself, whose type field reads the anchor's wrapped ItemCount. -/
theorem c9FamilyNeverDone :
    ∀ (fuel k : Nat) (fr : List Nat) (s : DelState) (st : Status),
      DeleteElementListLoop fuel ⟨[0, 0], [0, 0], [0, 5], k, fr⟩ 0 ≠
        DelRes.done s st := by
  intro fuel
  induction fuel with
  | zero => intro k fr s st h; exact DelRes.noConfusion h
  | succ n ih =>
    intro k fr s st
    have h32 : (2 : Nat) ^ 32 = 4294967296 := by norm_num
    by_cases hk : k % 4294967296 = 1 ∨ k % 4294967296 = 2
    · simp [DeleteElementListLoop, GetNextXmlElement, isNodeAtEnd,
        DriverXmlDeleteElementLeaf, typeRead, RemoveEntryList, h32, hk]
    · have hstep :
          DeleteElementListLoop (n + 1) ⟨[0, 0], [0, 0], [0, 5], k, fr⟩ 0 =
            DeleteElementListLoop n
              ⟨[0, 0], [0, 0], [0, 5], (k + (2 ^ 64 - 1)) % 2 ^ 64, fr ++ [0]⟩ 0 := by
        simp [DeleteElementListLoop, GetNextXmlElement, isNodeAtEnd,
          DriverXmlDeleteElementLeaf, typeRead, RemoveEntryList, h32, hk]
      rw [hstep]
      exact ih _ _ s st

/-- C9 (code bug): deleting the child list of a Tag that holds a single
CharacterData node does not stop after freeing that node.  First
conjunct: after two loop iterations the element (address 1) has been
freed and then the list sentinel (address 0) itself has been passed to
DriverXmlDeleteElement and freed, with the anchor's ItemCount
underflowing from 0 to 2^64 - 1 — so the deletion does not free exactly
the subtree's nodes and destroys the count invariant.  Second conjunct:
the loop never terminates for any amount of fuel (after removing the
last element, the freed node's stale ForwardLink leads back to the
sentinel, which is never "at end" of the now-empty list). -/
theorem C9_delete_walks_onto_sentinel :
    DeleteElementList 2 c9Init =
      DelRes.fuelOut
        { fwd := [0, 0], bwd := [0, 0], types := [0, 5],
          itemCount := 2 ^ 64 - 1, freed := [1, 0] } 0 ∧
    ∀ (fuel : Nat) (s : DelState) (st : Status),
      DeleteElementList fuel c9Init ≠ DelRes.done s st := by
  refine ⟨by decide, ?_⟩
  intro fuel s st
  rcases fuel with _ | _ | _ | n
  · intro h; exact DelRes.noConfusion h
  · intro h; exact DelRes.noConfusion h
  · intro h; exact DelRes.noConfusion h
  · exact c9FamilyNeverDone (n + 1) ((0 + (2 ^ 64 - 1)) % 2 ^ 64) [1, 0] s st

/-- C10 (confirmed): every piece the serializer routes through
StringToDocument — the tag openers and closers, attributes and processing
instructions — is copied into the output with its length capped at
MAX_TEMP_BUFFER_SIZE = 128 bytes (first conjunct, for every string and
document); a tag whose name is 200 bytes of 'a' therefore renders as a
truncated opener of 127 bytes followed by '>' with the "</name>" closer
truncated to nothing (second conjunct); only character data is copied at
its full recorded DataSize (third conjunct). -/
theorem C10_formatted_pieces_capped :
    (∀ (s : List Char) (d : OutDoc),
        d.op ≤ d.documentSize →
        (StringToDocument s d).op = d.op + asciiStrnLenS s MAX_TEMP_BUFFER_SIZE ∧
        asciiStrnLenS s MAX_TEMP_BUFFER_SIZE ≤ MAX_TEMP_BUFFER_SIZE) ∧
    (PrintData 9 (DxNode.tag (List.replicate 200 'a') [] [])
        ⟨[], 0, 0⟩).map renderedBytes =
      some ('<' :: (List.replicate 126 'a' ++ ['>'])) ∧
    (∀ (bytes : List Char) (n : Nat) (d : OutDoc),
        d.op ≤ d.documentSize →
        (PrintCharData bytes n d).op = d.op + n) := by
  refine ⟨?_, rfl, ?_⟩
  · intro s d h
    refine ⟨?_, Nat.min_le_right _ _⟩
    simp only [StringToDocument, ReallocateXmlDocument]
    split_ifs <;> simp_all
  · intro bytes n d h
    simp only [PrintCharData, ReallocateXmlDocument]
    split_ifs <;> simp_all

/-- C10 witness: the cap statement applied at concrete inputs — writing
the one-byte string "a" into an empty document advances the cursor by
one (≤ 128), and a character-data node of recorded size 2 advances the
cursor by exactly 2. -/
theorem C10_formatted_pieces_capped_witness :
    ((StringToDocument ("a".toList) ⟨[], 0, 0⟩).op =
        0 + asciiStrnLenS ("a".toList) MAX_TEMP_BUFFER_SIZE ∧
      asciiStrnLenS ("a".toList) MAX_TEMP_BUFFER_SIZE ≤ MAX_TEMP_BUFFER_SIZE) ∧
    (PrintCharData ("hi".toList) 2 ⟨[], 0, 0⟩).op = 0 + 2 :=
  ⟨C10_formatted_pieces_capped.1 ("a".toList) ⟨[], 0, 0⟩ (by decide),
   C10_formatted_pieces_capped.2.2 ("hi".toList) 2 ⟨[], 0, 0⟩ (by decide)⟩
